import Mathlib

/-!
Shallow embedding of the `node_tutorial_api` repository: the generic
file-backed document store (`src/lib/data.js`), the helper functions
(`src/lib/helpers.js`), and the user/token/check request handlers
(`src/lib/handlers.js`).  JavaScript values that can appear in parsed
JSON bodies and stored records are modelled by the inductive `Json`;
a JavaScript `undefined` is modelled by `Option.none` at the places
where the code can observe it (absent object fields, absent headers).
File-system errors other than nonexistence are environmental and are
not modelled: `fs.open` with flag `wx` fails exactly when the file
exists, `fs.open` with `r+` and `fs.readFile` fail exactly when it
does not.
-/

set_option autoImplicit false

/-- JSON-representable JavaScript value, as produced by `JSON.parse` and
stored by `JSON.stringify` in the document files. -/
inductive Json where
  | null : Json
  | bool : Bool → Json
  | num : Int → Json
  | str : String → Json
  | arr : List Json → Json
  | obj : List (String × Json) → Json
deriving Repr

/-- Property lookup on an object field list (`o.k`); `none` is `undefined`. -/
def getFieldList : List (String × Json) → String → Option Json
  | [], _ => none
  | p :: rest, k => if p.1 = k then some p.2 else getFieldList rest k

/-- Property lookup on a value (`v.k`); non-objects have no own properties
here, so the result is `undefined`. -/
def getField (j : Json) (k : String) : Option Json :=
  match j with
  | .obj fs => getFieldList fs k
  | _ => none

/-- Property assignment on an object field list (`o.k = v`): an existing
key keeps its position, a new key is appended, as in JavaScript. -/
def setFieldList : List (String × Json) → String → Json → List (String × Json)
  | [], k, v => [(k, v)]
  | p :: rest, k, v => if p.1 = k then (k, v) :: rest else p :: setFieldList rest k v

/-- Property assignment on a value; assigning to a primitive is a silent
no-op in sloppy-mode JavaScript. -/
def setField (j : Json) (k : String) (v : Json) : Json :=
  match j with
  | .obj fs => .obj (setFieldList fs k v)
  | _ => j

/-- Property deletion on an object field list (`delete o.k`). -/
def deleteFieldList : List (String × Json) → String → List (String × Json)
  | [], _ => []
  | p :: rest, k => if p.1 = k then deleteFieldList rest k else p :: deleteFieldList rest k

/-- Property deletion on a value (`delete o.k`); a no-op on primitives. -/
def deleteField (j : Json) (k : String) : Json :=
  match j with
  | .obj fs => .obj (deleteFieldList fs k)
  | _ => j

/-- JavaScript truthiness of a possibly-undefined value (`!v` negated). -/
def truthy : Option Json → Bool
  | none => false
  | some .null => false
  | some (.bool b) => b
  | some (.num n) => decide (n ≠ 0)
  | some (.str s) => decide (s ≠ "")
  | some (.arr _) => true
  | some (.obj _) => true

/-- JavaScript `String.prototype.trim`: strips leading and trailing
whitespace.  Defined structurally over the character list so that it
evaluates inside the kernel. -/
def jsTrim (s : String) : String :=
  String.mk (((s.data.dropWhile Char.isWhitespace).reverse.dropWhile Char.isWhitespace).reverse)

mutual
/-- JavaScript string coercion `String(v)`, used when a value is spliced
into a template literal such as a file name. -/
def jsString : Json → String
  | .null => "null"
  | .bool b => cond b "true" "false"
  | .num n => toString n
  | .str s => s
  | .arr xs => jsStringList xs
  | .obj _ => "[object Object]"

/-- Array stringification: elements joined with commas. -/
def jsStringList : List Json → String
  | [] => ""
  | [x] => jsString x
  | x :: rest => jsString x ++ "," ++ jsStringList rest
end

/-- Template-literal coercion of a possibly-undefined value:
an absent value prints as the string `undefined`. -/
def jsTemplate : Option Json → String
  | none => "undefined"
  | some j => jsString j

/-- JavaScript numeric coercion `Number(v)` restricted to the integral
values reachable in this program; `none` stands for `NaN`.  A string of
digits converts to its value, the empty (or blank) string to `0`; an
array converts through its comma-joined string form, so `[]` gives `0`,
a single numeric element gives that number, and anything with a comma
gives `NaN`. -/
def jsToNumber : Json → Option Int
  | .num n => some n
  | .bool b => some (cond b 1 0)
  | .null => some 0
  | .str s => if jsTrim s = "" then some 0 else (jsTrim s).toInt?
  | .arr [] => some 0
  | .arr [.num n] => some n
  | .arr [.str s] => if jsTrim s = "" then some 0 else (jsTrim s).toInt?
  | .arr _ => none
  | .obj _ => none

/-- JavaScript relational comparison `v >= n` against a number: both sides
are coerced to numbers and any `NaN` makes the comparison false. -/
def jsGeNum (v : Option Json) (n : Int) : Bool :=
  match v with
  | none => false
  | some j =>
    match jsToNumber j with
    | some m => decide (n ≤ m)
    | none => false

namespace helpers

/-- Embeds `helpers.stringOrFalse`: a string whose trimmed form is
non-empty yields that trimmed string, anything else yields `false`
(modelled as `none`). -/
def stringOrFalse : Option Json → Option String
  | some (.str s) => if 0 < (jsTrim s).length then some (jsTrim s) else none
  | _ => none

/-- Embeds `helpers.hash`: guarded by `stringOrFalse`, then an HMAC-SHA256
digest of the (untrimmed) argument.  The digest itself is a platform
primitive, abstracted as the parameter `hashFn`; call sites only ever pass
a `string | false` value, modelled as `Option String`. -/
def hash (hashFn : String → String) : Option String → Option String
  | none => none
  | some p => if 0 < (jsTrim p).length then some (hashFn p) else none

/-- Embeds `helpers.protocolOrFalse`. -/
def protocolOrFalse : Option Json → Option String
  | some (.str s) => if s = "https" ∨ s = "http" then some s else none
  | _ => none

/-- Embeds `helpers.methodOrFalse`. -/
def methodOrFalse : Option Json → Option String
  | some (.str s) => if s = "post" ∨ s = "get" ∨ s = "delete" ∨ s = "put" then some s else none
  | _ => none

/-- Embeds `helpers.timeoutSecondsOrFalse`: an integer between 1 and
`config.maxChecks` (the code reuses the check quota as the timeout bound).
JavaScript numbers are modelled as integers, so the `int % 1 === 0`
integrality test holds of every modelled number. -/
def timeoutSecondsOrFalse (maxChecks : Int) : Option Json → Option Int
  | some (.num n) => if 1 ≤ n ∧ n ≤ maxChecks then some n else none
  | _ => none

/-- Embeds `helpers.parseJsonStrToObject`: `JSON.parse` is a platform
primitive, abstracted as the parameter `parse` (an exception is an
`Except.error`); the `try/catch` turns any parse failure into `\x7b\x7d`. -/
def parseJsonStrToObject (parse : String → Except String Json) (str : String) : Json :=
  match parse str with
  | .ok v => v
  | .error _ => .obj []

end helpers

namespace validators

/-- Modelled from the spec: `validators.js` is required by
`src/lib/handlers.js` but is not among the source files.  §3 and §4.3 of
the spec say only that a phone must "match a phone-number shape" (an
E.164-ish string such as "15551234567").  Modelled as: the value is a
string whose trimmed form is non-empty and consists only of decimal
digits. -/
def phone (v : Option Json) : Bool :=
  match v with
  | some (.str s) => decide (jsTrim s ≠ "") && (jsTrim s).data.all Char.isDigit
  | _ => false

end validators

namespace Data

/-- The on-disk state of the store: one record per (collection, key);
`create` never inserts a key twice, so keys are unique by construction.
Serialization round-trips (`read` parses what `create`/`update`
stringified), so records are kept as `Json` values. -/
abbrev DataStore := List (String × String × Json)

/-- The record stored at a (collection, key), if any. -/
def lookupRec : DataStore → String → String → Option Json
  | [], _, _ => none
  | e :: rest, dir, file =>
    if e.1 = dir ∧ e.2.1 = file then some e.2.2 else lookupRec rest dir file

/-- Replaces the record stored at a (collection, key), leaving the rest of
the store unchanged. -/
def replaceRec : DataStore → String → String → Json → DataStore
  | [], _, _, _ => []
  | e :: rest, dir, file, d =>
    if e.1 = dir ∧ e.2.1 = file then (dir, file, d) :: rest else e :: replaceRec rest dir file d

/-- Embeds `lib.checkIfExists`: `fs.existsSync` on the record file. -/
def checkIfExists (s : DataStore) (dir file : String) : Bool :=
  (lookupRec s dir file).isSome

/-- Embeds `lib.create`: `fs.open` with flag `wx` fails exactly when the
file already exists, and the promise rejects with the string below;
otherwise the record is written. -/
def create (s : DataStore) (dir file : String) (d : Json) : Except String DataStore :=
  if checkIfExists s dir file then
    .error "Could not create new file, it may already exist"
  else
    .ok ((dir, file, d) :: s)

/-- Embeds `lib.read`: `fs.readFile` fails exactly when the file does not
exist (the promise rejects with the ENOENT error); on success the file
contents parse back to the stored record. -/
def read (s : DataStore) (dir file : String) : Except String Json :=
  match lookupRec s dir file with
  | some d => .ok d
  | none => .error "ENOENT"

/-- Embeds `lib.update`: `fs.open` with flag `r+` fails exactly when the
file does not exist; otherwise the file is truncated and rewritten. -/
def update (s : DataStore) (dir file : String) (d : Json) : Except String DataStore :=
  if checkIfExists s dir file then
    .ok (replaceRec s dir file d)
  else
    .error "Could not open the file for updating, it may not exist yet"

end Data

namespace config

/-- Embeds `lib/config.js`: the check quota, 5 in both environments. -/
def maxChecks : Int := 5

end config

/-- Response produced by a handler: a status code and an optional JSON
payload (`none` when `success(resolve)` is called with no payload). -/
structure Response where
  statusCode : Nat
  payload : Option Json
deriving Repr

/-- Embeds the `error` helper of `handlers.js`. -/
def errResp (code : Nat) (msg : String) : Response :=
  ⟨code, some (.obj [("error", .str msg)])⟩

/-- Embeds `error(resolve, code)` with no message: the payload is
an object whose `error` property is `undefined`, which serializes to the
empty object. -/
def errRespNoMsg (code : Nat) : Response :=
  ⟨code, some (.obj [])⟩

/-- Embeds `success(resolve)` with no payload. -/
def okResp : Response := ⟨200, none⟩

/-- Embeds the `missingRequiredFieldsError` helper. -/
def missingRequiredFieldsError : Response := errResp 400 "Missing required fields"

/-- Embeds the `tokenError` helper. -/
def tokenError : Response := errResp 403 "Token is missing or invalid"

/-- JavaScript strict equality `v !== s` (negated) between a
possibly-undefined value and a string: true only for the same string. -/
def jsStrictEqStr (v : Option Json) (s2 : String) : Bool :=
  match v with
  | some (.str t) => decide (t = s2)
  | _ => false

/-- JavaScript strict equality between a `string | false` value and a
possibly-undefined value. -/
def jsStrictEqSF (v : Option String) (j : Option Json) : Bool :=
  match v, j with
  | some h, some (.str h2) => decide (h = h2)
  | none, some (.bool false) => true
  | _, _ => false

/-- JavaScript relational comparison `v <= n` against a number, through
numeric coercion; `NaN` (including an undefined left side) compares false. -/
def jsLeNum (v : Option Json) (n : Int) : Bool :=
  match v with
  | none => false
  | some j =>
    match jsToNumber j with
    | some m => decide (m ≤ n)
    | none => false

/-- The JavaScript value denoted by a `string | false`. -/
def strOrFalseToVal : Option String → Json
  | some h => .str h
  | none => .bool false

namespace Handlers

open Data

/-- Embeds `handlers._tokens._verifyToken(tokenId, phone)`.  The `token`
header may be absent, in which case the template literal renders the file
name from `undefined`.  The whole body is wrapped in `try/catch` with the
catch resolving to `false`, so a failed read, or the property access
throwing on a `null` record, yields `false`.  The source guard is
`if (tokenData.phone !== phone && tokenData.expires <= Date.now())` —
a conjunction, which is the inversion flagged in §9 of the spec. -/
def verifyToken (s : DataStore) (token : Option String) (phone : String) (now : Int) : Bool :=
  match Data.read s "tokens" (token.getD "undefined") with
  | .error _ => false
  | .ok tokenData =>
    match tokenData with
    | .null => false
    | _ =>
      let ownerEq : Bool := jsStrictEqStr (getField tokenData "phone") phone
      let expired : Bool := jsLeNum (getField tokenData "expires") now
      if (!ownerEq) && expired then false else true

/-- Embeds `handlers._users.post`.  The keyed hash (HMAC-SHA256 with the
configured secret) is a platform primitive abstracted as `hashFn`. -/
def usersPost (hashFn : String → String) (s : DataStore) (payload : Json) :
    Response × DataStore :=
  let firstName := helpers.stringOrFalse (getField payload "firstName")
  let lastName := helpers.stringOrFalse (getField payload "lastName")
  let phone : Option String :=
    if validators.phone (getField payload "phone") then
      match getField payload "phone" with
      | some (.str p) => some (jsTrim p)
      | _ => none
    else none
  let password := helpers.stringOrFalse (getField payload "password")
  let tosAgreement : Bool :=
    match getField payload "tosAgreement" with
    | some (.bool b) => b
    | _ => false
  match firstName, lastName, phone, password with
  | some fn, some ln, some ph, some pw =>
    if !tosAgreement then (missingRequiredFieldsError, s)
    else if Data.checkIfExists s "users" ph then
      (errResp 400 "A user with this phone number already exists", s)
    else
      match helpers.hash hashFn (some pw) with
      | none => (errResp 500 "Could not hash the user\x27s password", s)
      | some hp =>
        let userObject : Json := .obj
          [("firstName", .str fn), ("lastName", .str ln), ("phone", .str ph),
           ("hashedPassword", .str hp), ("tosAgreement", .bool true),
           ("checks", .arr [])]
        match Data.create s "users" ph userObject with
        | .ok s2 => (okResp, s2)
        | .error _ => (errResp 500 "Could not create the new user", s)
  | _, _, _, _ => (missingRequiredFieldsError, s)

/-- Embeds `handlers._users.get`.  The query phone is used as sent (no
trim).  A `null` stored record makes `delete payload.hashedPassword`
throw, which the catch turns into the 404. -/
def usersGet (s : DataStore) (qphone : Option String) (token : Option String)
    (now : Int) : Response :=
  match qphone with
  | none => missingRequiredFieldsError
  | some phone =>
    if !validators.phone (some (.str phone)) then missingRequiredFieldsError
    else if !verifyToken s token phone now then tokenError
    else
      match Data.read s "users" phone with
      | .error _ => errRespNoMsg 404
      | .ok u =>
        match u with
        | .null => errRespNoMsg 404
        | _ => ⟨200, some (deleteField u "hashedPassword")⟩

/-- Embeds `handlers._users.put`.  Note the source line
`if (password) userData.hashedPassword = helpers.hash(lastName);` —
when a password is supplied, the value stored is the hash of the
(trimmed) `lastName` field, or the boolean `false` when no `lastName`
was supplied.  A `null` stored record makes the field assignment throw,
which the outer catch maps to the 400. -/
def usersPut (hashFn : String → String) (s : DataStore) (payload : Json)
    (token : Option String) (now : Int) : Response × DataStore :=
  let phone : Option String :=
    if validators.phone (getField payload "phone") then
      match getField payload "phone" with
      | some (.str p) => some (jsTrim p)
      | _ => none
    else none
  let firstName := helpers.stringOrFalse (getField payload "firstName")
  let lastName := helpers.stringOrFalse (getField payload "lastName")
  let password := helpers.stringOrFalse (getField payload "password")
  match phone with
  | none => (missingRequiredFieldsError, s)
  | some ph =>
    if firstName.isNone && lastName.isNone && password.isNone then
      (errResp 400 "Missing fields to update", s)
    else if !verifyToken s token ph now then (tokenError, s)
    else
      match Data.read s "users" ph with
      | .error _ => (errResp 400 "The specified user does not exist", s)
      | .ok userData =>
        match userData with
        | .null => (errResp 400 "The specified user does not exist", s)
        | _ =>
          let u1 := match firstName with
            | some f => setField userData "firstName" (.str f)
            | none => userData
          let u2 := match lastName with
            | some l => setField u1 "lastName" (.str l)
            | none => u1
          let u3 := match password with
            | some _ => setField u2 "hashedPassword"
                (strOrFalseToVal (helpers.hash hashFn lastName))
            | none => u2
          match Data.update s "users" ph u3 with
          | .ok s2 => (okResp, s2)
          | .error _ => (errResp 500 "Could not update the user", s)

/-- Embeds `handlers._tokens.post`.  `createRandomString(20)` is a source
of randomness, abstracted as the parameter `tokenId`; `Date.now()` at the
issue instant is the parameter `now`.  A `null` stored user makes the
`userData.hashedPassword` access throw, which the catch maps to the
user-not-found 400. -/
def tokensPost (hashFn : String → String) (s : DataStore) (payload : Json)
    (now : Int) (tokenId : String) : Response × DataStore :=
  let phone : Option String :=
    if validators.phone (getField payload "phone") then
      match getField payload "phone" with
      | some (.str p) => some (jsTrim p)
      | _ => none
    else none
  let password := helpers.stringOrFalse (getField payload "password")
  match phone, password with
  | some ph, some pw =>
    match Data.read s "users" ph with
    | .error _ => (errResp 400 "Could not find the specified user", s)
    | .ok userData =>
      match userData with
      | .null => (errResp 400 "Could not find the specified user", s)
      | _ =>
        let hashedPassword := helpers.hash hashFn (some pw)
        if !jsStrictEqSF hashedPassword (getField userData "hashedPassword") then
          (errResp 400 "Password did not match", s)
        else
          let tokenObject : Json := .obj
            [("phone", .str ph), ("id", .str tokenId),
             ("expires", .num (now + 60 * 60 * 1000))]
          match Data.create s "tokens" tokenId tokenObject with
          | .ok s2 => (⟨200, some tokenObject⟩, s2)
          | .error _ => (errResp 500 "Could not create the new token", s)
  | _, _ => (missingRequiredFieldsError, s)

/-- Embeds `handlers._tokens.put` (token extension).  A `null` stored
token makes the `tokenData.expires` access throw, which the outer catch
maps to the token-not-found 400. -/
def tokensPut (s : DataStore) (payload : Json) (now : Int) : Response × DataStore :=
  let id := getField payload "id"
  let ext := getField payload "extend"
  if !(truthy id && truthy ext) then (missingRequiredFieldsError, s)
  else
    match Data.read s "tokens" (jsTemplate id) with
    | .error _ => (errResp 400 "Specified token does not exist", s)
    | .ok tokenData =>
      match tokenData with
      | .null => (errResp 400 "Specified token does not exist", s)
      | _ =>
        if jsLeNum (getField tokenData "expires") now then
          (errResp 400 "The token has already expired and can not be extended", s)
        else
          let tokenData2 := setField tokenData "expires" (.num (now + 60 * 60 * 1000))
          match Data.update s "tokens" (jsTemplate id) tokenData2 with
          | .ok s2 => (okResp, s2)
          | .error _ => (errResp 500 "Could not update the token\x27s expiration", s)

/-- Outcome of the check-creation handler.  `crash` marks the branch where
the source calls `missingRequiredFieldsError()` without passing `resolve`:
the helper then invokes `undefined` as a function, the async handler
rejects, and the response promise is never resolved. -/
inductive COutcome where
  | resp : Response → DataStore → COutcome
  | crash : COutcome
deriving Repr

/-- Embeds `handlers._checks.post`.  Two faithful oddities of the source:
the user record is fetched by `_data.read('users')` with no key, so the
file name is rendered from `undefined`; and the quota guard
`checks >= config.maxChecks` compares the checks list itself to a number
through JavaScript coercion.  `createRandomString(20)` is abstracted as
the parameter `checkId`.  Spreading a stored `checks` value that is a
string yields its characters; spreading any other non-array throws, and
that `TypeError` is swallowed by the catch of the enclosing `try` whose
message is about check creation. -/
def checksPost (s : DataStore) (payload : Json) (token : Option String)
    (checkId : String) : COutcome :=
  let protocol := helpers.protocolOrFalse (getField payload "protocol")
  let url := helpers.stringOrFalse (getField payload "url")
  let method := helpers.methodOrFalse (getField payload "method")
  let successCodes : Option (List Json) :=
    match getField payload "successCodes" with
    | some (.arr l) => if 0 < l.length then some l else none
    | _ => none
  let timeoutSeconds :=
    helpers.timeoutSecondsOrFalse config.maxChecks (getField payload "timeoutSeconds")
  match protocol, url, method, successCodes, timeoutSeconds with
  | some proto, some u, some m, some codes, some tsec =>
    match Data.read s "tokens" (token.getD "undefined") with
    | .error _ => .resp tokenError s
    | .ok tokenData =>
      match tokenData with
      | .null => .resp tokenError s
      | _ =>
        let userPhone := getField tokenData "phone"
        match Data.read s "users" "undefined" with
        | .error _ => .resp tokenError s
        | .ok userData =>
          match userData with
          | .null => .resp tokenError s
          | _ =>
            let checks := getField userData "checks"
            if jsGeNum checks config.maxChecks then
              .resp (errResp 400 "The user already has the maximum number of checks") s
            else
              let checkObject : Json := .obj
                ((match userPhone with
                  | some v => [("id", Json.str checkId), ("userPhone", v)]
                  | none => [("id", Json.str checkId)]) ++
                 [("protocol", .str proto), ("url", .str u), ("method", .str m),
                  ("successCodes", .arr codes), ("timeoutSeconds", .num tsec)])
              match Data.create s "checks" checkId checkObject with
              | .error _ => .resp (errResp 500 "Could not create the new check") s
              | .ok s1 =>
                let spreadChecks : Option (List Json) :=
                  match checks with
                  | some (.arr xs) => some xs
                  | some (.str t) => some (t.data.map (fun c => Json.str (String.mk [c])))
                  | _ => none
                match spreadChecks with
                | none => .resp (errResp 500 "Could not create the new check") s1
                | some xs =>
                  let userData2 := setField userData "checks" (.arr (xs ++ [.str checkId]))
                  match Data.update s1 "users" (jsTemplate userPhone) userData2 with
                  | .ok s2 => .resp ⟨200, some checkObject⟩ s2
                  | .error _ =>
                    .resp (errResp 500 "Could not update the user with the new check") s1
  | _, _, _, _, _ => .crash

end Handlers

/-! Generic lemmas about field and store operations. -/

theorem getFieldList_deleteFieldList (fs : List (String × Json)) (k : String) :
    getFieldList (deleteFieldList fs k) k = none := by
  induction fs with
  | nil => rfl
  | cons p rest ih =>
    by_cases h : p.1 = k <;> simp [deleteFieldList, getFieldList, h, ih]

theorem getField_deleteField (j : Json) (k : String) :
    getField (deleteField j k) k = none := by
  cases j <;> simp [deleteField, getField, getFieldList_deleteFieldList]

theorem getFieldList_setFieldList_self (fs : List (String × Json)) (k : String) (v : Json) :
    getFieldList (setFieldList fs k v) k = some v := by
  induction fs with
  | nil => simp [setFieldList, getFieldList]
  | cons p rest ih =>
    by_cases h : p.1 = k <;> simp [setFieldList, getFieldList, h, ih]

theorem lookupRec_replaceRec_self (s : Data.DataStore) (dir file : String) (r0 r : Json)
    (h : Data.lookupRec s dir file = some r0) :
    Data.lookupRec (Data.replaceRec s dir file r) dir file = some r := by
  induction s with
  | nil => simp [Data.lookupRec] at h
  | cons e rest ih =>
    by_cases he : e.1 = dir ∧ e.2.1 = file
    · simp [Data.replaceRec, Data.lookupRec, he]
    · simp only [Data.replaceRec, Data.lookupRec, if_neg he] at h ⊢
      exact ih h

/-- Claim C1: the claim states that `verify(t.id, p)` is true only when
`p` equals the token's phone and the token is unexpired.  The code guard
is `if (tokenData.phone !== phone && tokenData.expires <= Date.now())`,
a conjunction where the intended validity rule needs a disjunction of the
negations, so a token verifies as valid for a *different* phone while it
is unexpired.  This theorem evaluates the embedded `_verifyToken` on a
stored token owned by "15551234567" expiring at 1000000, queried with the
different phone "19998887777" at instant 500: the code returns `true`
although the owner differs and the token is unexpired, contradicting the
claim.  The same inverted guard also validates an expired token for its
matching owner (second evaluation: expiry 100, queried at 500). -/
theorem C1_verify_accepts_wrong_owner :
    Handlers.verifyToken
      [("tokens", "tok1", Json.obj
        [("phone", Json.str "15551234567"), ("id", Json.str "tok1"),
         ("expires", Json.num 1000000)])]
      (some "tok1") "19998887777" 500 = true
    ∧ ("19998887777" : String) ≠ "15551234567"
    ∧ (500 : Int) < 1000000
    ∧ Handlers.verifyToken
        [("tokens", "tok1", Json.obj
          [("phone", Json.str "15551234567"), ("id", Json.str "tok1"),
           ("expires", Json.num 100)])]
        (some "tok1") "15551234567" 500 = true
    ∧ (100 : Int) ≤ 500 :=
  ⟨rfl, by decide, by decide, rfl, by decide⟩

/-- Claim C9: a token id that names no stored token verifies false for
every phone; the read failure is absorbed by the handler's `try/catch`
(embedded as the match on the `Except` result), so no error is raised —
the embedded function is total and returns a plain `Bool`. -/
theorem C9_verify_absent_token_false (s : Data.DataStore) (id ph : String) (now : Int)
    (h : Data.lookupRec s "tokens" id = none) :
    Handlers.verifyToken s (some id) ph now = false := by
  simp [Handlers.verifyToken, Data.read, Option.getD, h]

theorem C9_witness :
    Data.lookupRec ([] : Data.DataStore) "tokens" "nosuchtoken" = none
    ∧ Handlers.verifyToken [] (some "nosuchtoken") "15551234567" 0 = false :=
  ⟨rfl, C9_verify_absent_token_false [] "nosuchtoken" "15551234567" 0 rfl⟩

/-- Claim C4: `create` on a (collection, key) that already holds a record
fails (the promise rejects with the exclusive-creation message — the
spec's `Conflict`) and, being a rejection, produces no new store; and a
concrete signup succeeds exactly once — the second identical signup
fails with the duplicate-phone 400 and leaves the store unchanged. -/
theorem C4_exclusive_create :
    (∀ (s : Data.DataStore) (dir file : String) (r0 r : Json),
      Data.lookupRec s dir file = some r0 →
      Data.create s dir file r = .error "Could not create new file, it may already exist")
    ∧ (∀ hashFn : String → String,
      Handlers.usersPost hashFn []
        (.obj [("firstName", .str "A"), ("lastName", .str "B"),
               ("phone", .str "15551234567"), ("password", .str "pw"),
               ("tosAgreement", .bool true)])
        = (okResp,
           [("users", "15551234567", Json.obj
             [("firstName", .str "A"), ("lastName", .str "B"),
              ("phone", .str "15551234567"), ("hashedPassword", .str (hashFn "pw")),
              ("tosAgreement", .bool true), ("checks", .arr [])])])
      ∧ Handlers.usersPost hashFn
          [("users", "15551234567", Json.obj
            [("firstName", .str "A"), ("lastName", .str "B"),
             ("phone", .str "15551234567"), ("hashedPassword", .str (hashFn "pw")),
             ("tosAgreement", .bool true), ("checks", .arr [])])]
          (.obj [("firstName", .str "A"), ("lastName", .str "B"),
                 ("phone", .str "15551234567"), ("password", .str "pw"),
                 ("tosAgreement", .bool true)])
          = (errResp 400 "A user with this phone number already exists",
             [("users", "15551234567", Json.obj
               [("firstName", .str "A"), ("lastName", .str "B"),
                ("phone", .str "15551234567"), ("hashedPassword", .str (hashFn "pw")),
                ("tosAgreement", .bool true), ("checks", .arr [])])])) := by
  constructor
  · intro s dir file r0 r h
    simp [Data.create, Data.checkIfExists, h]
  · intro hashFn
    exact ⟨rfl, rfl⟩

theorem C4_witness :
    Data.lookupRec [("users", "15551234567", Json.obj [])] "users" "15551234567"
      = some (Json.obj [])
    ∧ Data.create [("users", "15551234567", Json.obj [])] "users" "15551234567" (Json.num 1)
      = .error "Could not create new file, it may already exist" :=
  ⟨rfl, C4_exclusive_create.1 [("users", "15551234567", Json.obj [])] "users" "15551234567"
    (Json.obj []) (Json.num 1) rfl⟩

/-- Claim C7: `update` on a (collection, key) holding no record fails
(the promise rejects with the open-for-updating message — the spec's
`NotFound`), producing no store at all, so nothing is created; and an
update can succeed exactly when a record is already present. -/
theorem C7_update_requires_existing (s : Data.DataStore) (dir file : String) (r : Json) :
    (Data.lookupRec s dir file = none →
      Data.update s dir file r
        = .error "Could not open the file for updating, it may not exist yet")
    ∧ ((∃ s2, Data.update s dir file r = .ok s2) ↔ (Data.lookupRec s dir file).isSome) := by
  refine ⟨fun h => by simp [Data.update, Data.checkIfExists, h], ?_, ?_⟩
  · rintro ⟨s2, h2⟩
    by_cases hex : (Data.lookupRec s dir file).isSome
    · exact hex
    · simp [Data.update, Data.checkIfExists, hex] at h2
  · intro hex
    exact ⟨Data.replaceRec s dir file r, by simp [Data.update, Data.checkIfExists, hex]⟩

theorem C7_witness :
    Data.update ([] : Data.DataStore) "users" "15551234567" (Json.obj [])
      = .error "Could not open the file for updating, it may not exist yet" :=
  (C7_update_requires_existing [] "users" "15551234567" (Json.obj [])).1 rfl

/-- Claim C6: a successful user read (valid phone shape, verified token,
record present) returns the stored record with the `hashedPassword`
property deleted, and the returned record has no `hashedPassword`
field. -/
theorem C6_user_get_strips_hash (s : Data.DataStore) (ph : String) (token : Option String)
    (now : Int) (fs : List (String × Json))
    (hph : validators.phone (some (.str ph)) = true)
    (hver : Handlers.verifyToken s token ph now = true)
    (hu : Data.lookupRec s "users" ph = some (.obj fs)) :
    Handlers.usersGet s (some ph) token now
      = ⟨200, some (deleteField (.obj fs) "hashedPassword")⟩
    ∧ getField (deleteField (.obj fs) "hashedPassword") "hashedPassword" = none := by
  refine ⟨?_, getField_deleteField _ _⟩
  simp [Handlers.usersGet, hph, hver, Data.read, hu]

theorem C6_witness :
    Handlers.usersGet
      [("users", "15551234567", Json.obj
        [("firstName", Json.str "A"), ("hashedPassword", Json.str "h")]),
       ("tokens", "t1", Json.obj
        [("phone", Json.str "15551234567"), ("expires", Json.num 10)])]
      (some "15551234567") (some "t1") 0
      = ⟨200, some (deleteField (Json.obj
          [("firstName", Json.str "A"), ("hashedPassword", Json.str "h")]) "hashedPassword")⟩
    ∧ getField (deleteField (Json.obj
        [("firstName", Json.str "A"), ("hashedPassword", Json.str "h")]) "hashedPassword")
        "hashedPassword" = none :=
  C6_user_get_strips_hash _ "15551234567" (some "t1") 0
    [("firstName", Json.str "A"), ("hashedPassword", Json.str "h")] rfl rfl rfl

/-- Claim C5: extending a token whose `expires` is at or before `now`
fails with the already-expired 400 and returns the store untouched (the
stored token, `expires` included, is not mutated); extending an
unexpired token succeeds, and the persisted token is the stored one with
`expires` reset to `now` plus one hour (3600000 ms). -/
theorem C5_token_extend (s : Data.DataStore) (tid : String) (fs : List (String × Json))
    (now e : Int)
    (htid : tid ≠ "")
    (hlook : Data.lookupRec s "tokens" tid = some (.obj fs))
    (hexp : getFieldList fs "expires" = some (.num e)) :
    (e ≤ now →
      Handlers.tokensPut s (.obj [("id", .str tid), ("extend", .bool true)]) now
        = (errResp 400 "The token has already expired and can not be extended", s))
    ∧ (now < e →
      Handlers.tokensPut s (.obj [("id", .str tid), ("extend", .bool true)]) now
        = (okResp, Data.replaceRec s "tokens" tid
            (.obj (setFieldList fs "expires" (.num (now + 3600000)))))
      ∧ Data.lookupRec
          (Data.replaceRec s "tokens" tid
            (.obj (setFieldList fs "expires" (.num (now + 3600000))))) "tokens" tid
          = some (.obj (setFieldList fs "expires" (.num (now + 3600000))))
      ∧ getFieldList (setFieldList fs "expires" (.num (now + 3600000))) "expires"
          = some (.num (now + 3600000))) := by
  have h36 : (60 * 60 * 1000 : Int) = 3600000 := by norm_num
  constructor
  · intro hle
    simp [Handlers.tokensPut, getField, getFieldList, truthy, htid, jsTemplate, jsString,
      Data.read, hlook, jsLeNum, jsToNumber, hexp, hle]
  · intro hlt
    have hnle : ¬ (e ≤ now) := not_le.mpr hlt
    refine ⟨?_, lookupRec_replaceRec_self s "tokens" tid _ _ hlook,
      getFieldList_setFieldList_self fs "expires" _⟩
    simp [Handlers.tokensPut, getField, getFieldList, truthy, htid, jsTemplate, jsString,
      Data.read, hlook, jsLeNum, jsToNumber, hexp, hnle, setField,
      Data.update, Data.checkIfExists, h36]

theorem C5_witness :
    Handlers.tokensPut
      [("tokens", "t1", Json.obj [("phone", Json.str "15551234567"), ("expires", Json.num 100)])]
      (Json.obj [("id", Json.str "t1"), ("extend", Json.bool true)]) 100
      = (errResp 400 "The token has already expired and can not be extended",
         [("tokens", "t1", Json.obj
           [("phone", Json.str "15551234567"), ("expires", Json.num 100)])]) :=
  (C5_token_extend
    [("tokens", "t1", Json.obj [("phone", Json.str "15551234567"), ("expires", Json.num 100)])]
    "t1" [("phone", Json.str "15551234567"), ("expires", Json.num 100)]
    100 100 (by decide) rfl rfl).1 le_rfl

/-- Claim C8: a successful token issue (valid phone and password shapes,
user present, stored hash equal to the keyed hash of the password, fresh
token id) responds 200 with a token object whose `expires` is the issue
instant plus exactly 3600000 milliseconds, and persists exactly that
object under the token id. -/
theorem C8_token_issue_expiry (hashFn : String → String) (s : Data.DataStore)
    (ph pw tid : String) (now : Int) (fs : List (String × Json))
    (hph : validators.phone (some (.str ph)) = true)
    (hpht : jsTrim ph = ph)
    (hpwt : jsTrim pw = pw) (hpwlen : 0 < pw.length)
    (hu : Data.lookupRec s "users" ph = some (.obj fs))
    (hhash : getFieldList fs "hashedPassword" = some (.str (hashFn pw)))
    (hfresh : Data.lookupRec s "tokens" tid = none) :
    Handlers.tokensPost hashFn s (.obj [("phone", .str ph), ("password", .str pw)]) now tid
      = (⟨200, some (.obj [("phone", .str ph), ("id", .str tid),
            ("expires", .num (now + 3600000))])⟩,
         ("tokens", tid, Json.obj [("phone", .str ph), ("id", .str tid),
            ("expires", .num (now + 3600000))]) :: s)
    ∧ Data.lookupRec
        (("tokens", tid, Json.obj [("phone", .str ph), ("id", .str tid),
            ("expires", .num (now + 3600000))]) :: s) "tokens" tid
        = some (.obj [("phone", .str ph), ("id", .str tid),
            ("expires", .num (now + 3600000))]) := by
  have h36 : (60 * 60 * 1000 : Int) = 3600000 := by norm_num
  constructor
  · simp [Handlers.tokensPost, getField, getFieldList, hph, hpht, helpers.stringOrFalse,
      hpwt, hpwlen, Data.read, hu, helpers.hash, jsStrictEqSF, hhash, Data.create,
      Data.checkIfExists, hfresh, h36]
  · simp [Data.lookupRec]

theorem C8_witness :
    Handlers.tokensPost (fun _ => "H")
      [("users", "15551234567", Json.obj [("hashedPassword", Json.str "H")])]
      (Json.obj [("phone", Json.str "15551234567"), ("password", Json.str "pw")]) 0 "t0k3n"
      = (⟨200, some (Json.obj [("phone", Json.str "15551234567"), ("id", Json.str "t0k3n"),
            ("expires", Json.num (0 + 3600000))])⟩,
         ("tokens", "t0k3n", Json.obj [("phone", Json.str "15551234567"),
            ("id", Json.str "t0k3n"), ("expires", Json.num (0 + 3600000))])
           :: [("users", "15551234567", Json.obj [("hashedPassword", Json.str "H")])])
    ∧ Data.lookupRec
        (("tokens", "t0k3n", Json.obj [("phone", Json.str "15551234567"),
            ("id", Json.str "t0k3n"), ("expires", Json.num (0 + 3600000))])
          :: [("users", "15551234567", Json.obj [("hashedPassword", Json.str "H")])])
        "tokens" "t0k3n"
        = some (Json.obj [("phone", Json.str "15551234567"), ("id", Json.str "t0k3n"),
            ("expires", Json.num (0 + 3600000))]) :=
  C8_token_issue_expiry (fun _ => "H") _ "15551234567" "pw" "t0k3n" 0
    [("hashedPassword", Json.str "H")] rfl rfl rfl (by decide) rfl rfl rfl

/-- Claim C3: the claim states that a user update supplying a new
password stores the keyed hash of that password.  The source line is
`if (password) userData.hashedPassword = helpers.hash(lastName);` — it
hashes the `lastName` field instead.  This theorem evaluates the
embedded `_users.put` on a shape-valid request carrying
`lastName = "B"` and `password = "newpw"` with a valid token, with the
keyed hash instantiated to the stand-in digest `fun p => p ++ "#h"`:
the stored `hashedPassword` becomes `"B#h"` (the hash of the last
name), while the hash of the supplied password is `"newpw#h"`, a
different string — contradicting the claim. -/
theorem C3_update_hashes_lastName :
    Handlers.usersPut (fun p => p ++ "#h")
      [("users", "15551234567", Json.obj [("hashedPassword", Json.str "old")]),
       ("tokens", "t1", Json.obj [("phone", Json.str "15551234567"), ("expires", Json.num 10)])]
      (Json.obj [("phone", Json.str "15551234567"), ("lastName", Json.str "B"),
                 ("password", Json.str "newpw")])
      (some "t1") 0
      = (okResp,
         [("users", "15551234567",
           Json.obj [("hashedPassword", Json.str "B#h"), ("lastName", Json.str "B")]),
          ("tokens", "t1", Json.obj
           [("phone", Json.str "15551234567"), ("expires", Json.num 10)])])
    ∧ helpers.hash (fun p => p ++ "#h") (some "newpw") = some "newpw#h"
    ∧ ("B#h" : String) ≠ "newpw#h" :=
  ⟨rfl, rfl, by decide⟩

/-- Claim C2: the claim states that a shape-valid check creation with a
valid token succeeds while the owner is below the quota and fails with
the max-checks 400 at the quota.  The source reads the owner's record
with `_data.read('users')` — no key, so the file name is rendered from
`undefined` — and that read's failure is caught as a token error.  This
theorem evaluates the embedded `_checks.post` for an owner with zero
checks (quota is 5), a valid unexpired token and a shape-valid payload:
the result is the 403 token error and the store is unchanged — no check
is ever created, contradicting both halves of the claim. -/
theorem C2_check_create_cannot_succeed :
    Handlers.checksPost
      [("users", "15551234567", Json.obj
        [("firstName", Json.str "A"), ("lastName", Json.str "B"),
         ("phone", Json.str "15551234567"), ("hashedPassword", Json.str "h"),
         ("tosAgreement", Json.bool true), ("checks", Json.arr [])]),
       ("tokens", "t1", Json.obj
        [("phone", Json.str "15551234567"), ("id", Json.str "t1"),
         ("expires", Json.num 9999999)])]
      (Json.obj [("protocol", Json.str "http"), ("url", Json.str "mysite.com"),
                 ("method", Json.str "get"), ("successCodes", Json.arr [Json.num 200]),
                 ("timeoutSeconds", Json.num 3)])
      (some "t1") "chk00000000000000001"
      = .resp tokenError
          [("users", "15551234567", Json.obj
            [("firstName", Json.str "A"), ("lastName", Json.str "B"),
             ("phone", Json.str "15551234567"), ("hashedPassword", Json.str "h"),
             ("tosAgreement", Json.bool true), ("checks", Json.arr [])]),
           ("tokens", "t1", Json.obj
            [("phone", Json.str "15551234567"), ("id", Json.str "t1"),
             ("expires", Json.num 9999999)])]
    ∧ getField (Json.obj
        [("firstName", Json.str "A"), ("lastName", Json.str "B"),
         ("phone", Json.str "15551234567"), ("hashedPassword", Json.str "h"),
         ("tosAgreement", Json.bool true), ("checks", Json.arr [])]) "checks"
        = some (Json.arr [])
    ∧ config.maxChecks = 5 :=
  ⟨rfl, rfl, rfl⟩

/-- Claim C10: `parseJsonStrToObject` is a total function — the `try`
around the platform parser means no input makes it throw — returning the
parsed value on success and the empty object on any parse failure; and
feeding the resulting empty payload of a malformed body to the user
signup handler yields the 400 missing-required-fields response with the
store unchanged. -/
theorem C10_parse_total (parse : String → Except String Json) (str : String) :
    (∀ e, parse str = .error e → helpers.parseJsonStrToObject parse str = .obj [])
    ∧ (∀ v, parse str = .ok v → helpers.parseJsonStrToObject parse str = v)
    ∧ (∀ (hashFn : String → String) (s : Data.DataStore) (e : String),
        parse str = .error e →
        Handlers.usersPost hashFn s (helpers.parseJsonStrToObject parse str)
          = (missingRequiredFieldsError, s)) := by
  refine ⟨fun e h => by simp [helpers.parseJsonStrToObject, h],
    fun v h => by simp [helpers.parseJsonStrToObject, h], ?_⟩
  intro hashFn s e h
  have hempty : helpers.parseJsonStrToObject parse str = .obj [] := by
    simp [helpers.parseJsonStrToObject, h]
  rw [hempty]
  rfl

theorem C10_witness :
    helpers.parseJsonStrToObject (fun _ => Except.error "SyntaxError") "not json" = Json.obj []
    ∧ Handlers.usersPost (fun p => p) []
        (helpers.parseJsonStrToObject (fun _ => Except.error "SyntaxError") "not json")
      = (missingRequiredFieldsError, []) :=
  ⟨(C10_parse_total (fun _ => Except.error "SyntaxError") "not json").1 "SyntaxError" rfl,
   (C10_parse_total (fun _ => Except.error "SyntaxError") "not json").2.2
     (fun p => p) [] "SyntaxError" rfl⟩
